import Mathlib

/-!
Verification of the sampling-validation-persistence pipeline of
`pc_stats_logs` (module `ram_usages`), shallowly embedded from the
source files:
  * `operations/stats_monitor.py` — `get_pc_stats`, `insert_stats_to_db`
  * `operations/models.py`        — pydantic models `PcStatsCreateData`,
                                    `GpuStatsCreateData`
  * `main.py`                     — `main_loop` startup gate

Python floats are modelled as tagged rationals (`PyFloat`), Python
values passed to pydantic as `PyVal`, exceptions as `Except String`,
and the database interface as an oracle `Store` saying whether each
`create` call succeeds.
-/

set_option autoImplicit false

namespace PcStatsLogs

/-- A Python `float` value: a finite rational, NaN, or a signed infinity. -/
inductive PyFloat where
  | finite (q : ℚ)
  | nan
  | inf
  | ninf
deriving DecidableEq

/-- A Python value as received by a pydantic field: `None`, an `int`,
a `float`, or some other (non-numeric) object that fails numeric coercion. -/
inductive PyVal where
  | vnone
  | vint (n : ℤ)
  | vfloat (f : PyFloat)
  | vobj (tag : String)
deriving DecidableEq

/-- Round a rational to the nearest integer, ties to even
(Python's rounding mode for `round`). -/
def roundHalfEven (x : ℚ) : ℤ :=
  let f := ⌊x⌋
  let r := x - (f : ℚ)
  if r < 1 / 2 then f
  else if 1 / 2 < r then f + 1
  else if f % 2 = 0 then f else f + 1

/-- Round a rational to two decimal places, ties to even. -/
def round2 (x : ℚ) : ℚ := ((roundHalfEven (100 * x) : ℤ) : ℚ) / 100

/-- Python `round(x, 2)` on a float: finite values are rounded to two
decimals; `round(nan, 2)` is NaN and `round(±inf, 2)` is ±inf. -/
def pyRound2 : PyFloat → PyFloat
  | .finite q => .finite (round2 q)
  | .nan => .nan
  | .inf => .inf
  | .ninf => .ninf

/-- Python float division `x / d` by a positive finite constant `d`. -/
def pyDiv (x : PyFloat) (d : ℚ) : PyFloat :=
  match x with
  | .finite q => .finite (q / d)
  | .nan => .nan
  | .inf => .inf
  | .ninf => .ninf

/-- pydantic validation of an `Optional[float]` field with default
configuration: `None` passes, ints are coerced to float, and any float
— including NaN and the infinities — is accepted (`allow_inf_nan`
defaults to true); non-numeric objects are rejected. -/
def validate_optional_float : PyVal → Except String (Option PyFloat)
  | .vnone => .ok none
  | .vint n => .ok (some (.finite (n : ℚ)))
  | .vfloat f => .ok (some f)
  | .vobj t => .error ("value is not a valid float: " ++ t)

/-- pydantic validation of the required `gpu_id: int` field, for the
value shapes arising in this pipeline: an `int` passes; `None` and
non-numeric objects are rejected, and so is a `float` (GPUtil supplies
integer ids; a NaN id is rejected by every pydantic version). -/
def validate_int : PyVal → Except String ℤ
  | .vint n => .ok n
  | .vnone => .error "none is not an allowed value"
  | .vfloat _ => .error "value is not a valid integer"
  | .vobj t => .error ("value is not a valid integer: " ++ t)

/-- The validated shape of `PcStatsCreateData` (operations/models.py):
six `Optional[float]` fields. -/
structure PcStatsCreateData where
  pc_usage : Option PyFloat
  pc_freq : Option PyFloat
  ram_usage : Option PyFloat
  ram_available : Option PyFloat
  internet_receive : Option PyFloat
  internet_sent : Option PyFloat
deriving DecidableEq

/-- The validated shape of `GpuStatsCreateData` (operations/models.py):
required `gpu_id: int` and three `Optional[float]` fields. -/
structure GpuStatsCreateData where
  gpu_id : ℤ
  ram_usage : Option PyFloat
  ram_available : Option PyFloat
  temp : Option PyFloat
deriving DecidableEq

/-- `PcStatsCreateData(**d)`: validate each field. -/
def validate_pc_stats (pc_usage pc_freq ram_usage ram_available
    internet_receive internet_sent : PyVal) : Except String PcStatsCreateData := do
  let a ← validate_optional_float pc_usage
  let b ← validate_optional_float pc_freq
  let c ← validate_optional_float ram_usage
  let d ← validate_optional_float ram_available
  let e ← validate_optional_float internet_receive
  let f ← validate_optional_float internet_sent
  return ⟨a, b, c, d, e, f⟩

/-- `GpuStatsCreateData(**d)`: validate each field. -/
def validate_gpu_stats (gpu_id ram_usage ram_available temp : PyVal) :
    Except String GpuStatsCreateData := do
  let i ← validate_int gpu_id
  let a ← validate_optional_float ram_usage
  let b ← validate_optional_float ram_available
  let c ← validate_optional_float temp
  return ⟨i, a, b, c⟩

/-- The raw host snapshot `get_pc_stats` reads from psutil:
`cpu_percent`, `cpu_freq().current` (absent when `cpu_freq()` is falsy),
`virtual_memory().used/available` in bytes, and
`net_io_counters().bytes_recv/bytes_sent`. -/
structure HostRaw where
  cpu_percent : PyFloat
  cpu_freq : Option PyFloat
  mem_used : PyFloat
  mem_avail : PyFloat
  bytes_recv : PyFloat
  bytes_sent : PyFloat
deriving DecidableEq

/-- A raw GPU reading from `GPUtil.getGPUs()`: `gpu.id` as delivered by
the driver, and memory/temperature attributes that may be `None`. -/
structure GpuRaw where
  id : PyVal
  memoryUsed : Option PyFloat
  memoryFree : Option PyFloat
  temperature : Option PyFloat
deriving DecidableEq

/-- The `pc_data_dict` built by `get_pc_stats`: `pc_usage` is stored as
returned by `psutil.cpu_percent` (no rounding in the source), every
other field is rounded to two decimals (after unit conversion). -/
structure PcDataDict where
  pc_usage : PyFloat
  pc_freq : Option PyFloat
  ram_usage : PyFloat
  ram_available : PyFloat
  internet_receive : PyFloat
  internet_sent : PyFloat
deriving DecidableEq

/-- A `gpu_dict` built by `get_pc_stats` for one GPU. -/
structure GpuDict where
  gpu_id : PyVal
  ram_usage : PyFloat
  ram_available : PyFloat
  temp : PyFloat
deriving DecidableEq

/-- Lines 29-44 of `stats_monitor.py`: build `pc_data_dict`.
`pc_usage = psutil.cpu_percent(interval=None)` with no `round` call;
`pc_freq = round(cpu_freq.current, 2) if cpu_freq else None`;
`ram_usage/ram_available = round(bytes / 1024**3, 2)`;
`internet_receive/internet_sent = round(bytes / 1024**2, 2)`. -/
def buildPcDict (h : HostRaw) : PcDataDict where
  pc_usage := h.cpu_percent
  pc_freq := h.cpu_freq.map pyRound2
  ram_usage := pyRound2 (pyDiv h.mem_used (1024 ^ 3))
  ram_available := pyRound2 (pyDiv h.mem_avail (1024 ^ 3))
  internet_receive := pyRound2 (pyDiv h.bytes_recv (1024 ^ 2))
  internet_sent := pyRound2 (pyDiv h.bytes_sent (1024 ^ 2))

/-- Wrap an optional float back into the Python value handed to pydantic. -/
def pyValOfOpt : Option PyFloat → PyVal
  | none => .vnone
  | some f => .vfloat f

/-- `_ = PcStatsCreateData(**pc_data_dict)` — validation only, the dict
itself is what flows onward. -/
def validate_pc_dict (d : PcDataDict) : Except String PcStatsCreateData :=
  validate_pc_stats (.vfloat d.pc_usage) (pyValOfOpt d.pc_freq)
    (.vfloat d.ram_usage) (.vfloat d.ram_available)
    (.vfloat d.internet_receive) (.vfloat d.internet_sent)

/-- `round(attr, 2)` on a GPUtil attribute: raises `TypeError` when the
attribute is `None`. -/
def pyRound2Val : Option PyFloat → Except String PyFloat
  | none => .error "TypeError: type NoneType doesn't define round method"
  | some f => .ok (pyRound2 f)

/-- One iteration of the GPU loop body (lines 62-74 of
`stats_monitor.py`): build `gpu_dict` (rounding each attribute), then
validate with `GpuStatsCreateData`; any exception escapes to the
enclosing handler. -/
def processGpu (g : GpuRaw) : Except String GpuDict := do
  let mu ← pyRound2Val g.memoryUsed
  let mf ← pyRound2Val g.memoryFree
  let t ← pyRound2Val g.temperature
  let _ ← validate_gpu_stats g.id (.vfloat mu) (.vfloat mf) (.vfloat t)
  return ⟨g.id, mu, mf, t⟩

/-- The `for gpu in gpus` loop: append each validated `gpu_dict` to
`gpu_data_list`; the first exception aborts the loop (it is caught by
the surrounding `except`, which prints a WARNING — the `true` flag),
keeping the dicts appended so far. -/
def gpuLoop : List GpuRaw → List GpuDict → List GpuDict × Bool
  | [], acc => (acc, false)
  | g :: rest, acc =>
    match processGpu g with
    | .ok d => gpuLoop rest (acc ++ [d])
    | .error _ => (acc, true)

/-- An element of the `all_stats` list handed to `insert_stats_to_db`.
`insert_stats_to_db` discriminates with `'gpu_id' in item`: the `gpu`
constructor is a dict with a `gpu_id` key, the `pc` constructor one
without. -/
inductive Item where
  | pc (d : PcDataDict)
  | gpu (d : GpuDict)
deriving DecidableEq

/-- `get_pc_stats` (stats_monitor.py lines 13-91), with the psutil host
snapshot and the `GPUtil.getGPUs()` outcome as oracles. Returns the
`all_stats` list (`None` when the outer handler caught an exception)
and whether the inner GPU handler printed its WARNING. A host snapshot
failure or a pc-dict validation failure reaches the outer handler and
yields `None`; a GPU enumeration or per-GPU failure is: caught by the
inner handler. -/
def get_pc_stats (host : Except String HostRaw)
    (gpus : Except String (List GpuRaw)) : Option (List Item) × Bool :=
  match host with
  | .error _ => (none, false)
  | .ok h =>
    let d := buildPcDict h
    match validate_pc_dict d with
    | .error _ => (none, false)
    | .ok _ =>
      let gw := match gpus with
        | .error _ => ([], true)
        | .ok gs => gpuLoop gs []
      (some (Item.pc d :: gw.1.map Item.gpu), gw.2)

/-- The database oracle: whether `pc_interface.create` /
`gpu_interface.create` succeeds on a given record (a failing call
raises, modelled as `false`). -/
structure Store where
  pcOk : PcDataDict → Bool
  gpuOk : GpuDict → Bool

/-- The Python return value of `insert_stats_to_db`. The source is
annotated `-> None` and has no `return <value>` statement, but a
counts-shaped return is representable for comparison with the spec. -/
inductive PyRet where
  | retNone
  | counts (host gpu : ℕ) (errors : List Item)
deriving DecidableEq

/-- The observable per-call state of `insert_stats_to_db`:
`pc_inserted`/`gpu_inserted` are the two counters, `attempts` the
`create` calls issued in order, `errors` the items whose insertion
raised (each printed as an ERROR line), `skipped` the extra pc-shaped
items dropped with a WARNING line. -/
structure InsertState where
  pc_inserted : ℕ
  gpu_inserted : ℕ
  attempts : List Item
  errors : List Item
  skipped : List Item
deriving DecidableEq

/-- Counter state at the top of `insert_stats_to_db`. -/
def initState : InsertState := ⟨0, 0, [], [], []⟩

/-- The `for item in stats_list` loop of `insert_stats_to_db` (lines
115-141 of `stats_monitor.py`): a `gpu_id`-keyed item is always given
to `gpu_interface.create`; a pc-shaped item is given to
`pc_interface.create` only while `pc_stats_inserted_count == 0`,
otherwise skipped with a WARNING; a raising `create` is caught by the
per-item `except`, which records the error and lets the loop continue. -/
def insertLoop (store : Store) : List Item → InsertState → InsertState
  | [], s => s
  | item :: rest, s =>
    match item with
    | Item.gpu d =>
      let s1 := { s with attempts := s.attempts ++ [item] }
      let s2 := if store.gpuOk d
        then { s1 with gpu_inserted := s1.gpu_inserted + 1 }
        else { s1 with errors := s1.errors ++ [item] }
      insertLoop store rest s2
    | Item.pc d =>
      if s.pc_inserted = 0 then
        let s1 := { s with attempts := s.attempts ++ [item] }
        let s2 := if store.pcOk d
          then { s1 with pc_inserted := s1.pc_inserted + 1 }
          else { s1 with errors := s1.errors ++ [item] }
        insertLoop store rest s2
      else
        insertLoop store rest { s with skipped := s.skipped ++ [item] }

/-- `insert_stats_to_db` (stats_monitor.py lines 93-151): an empty
`stats_list` returns early before the loop; in every case the Python
function returns `None` — the counters only feed the final print
statements. -/
def insert_stats_to_db (store : Store) (batch : List Item) :
    PyRet × InsertState :=
  if batch.isEmpty then (PyRet.retNone, initState)
  else (PyRet.retNone, insertLoop store batch initState)

/-- `if not conn_string` in `main_loop`: `os.getenv` yields `None` when
the variable is absent, and the guard also fires on an empty string. -/
def conn_string_missing : Option String → Bool
  | none => true
  | some s => s.isEmpty

/-- What one run of `main_loop` did: whether `init_db` was reached and
how many times `gather_stats_pipeline` (one collection cycle) ran. -/
structure MainTrace where
  init_called : Bool
  pipeline_calls : ℕ
deriving DecidableEq

/-- `main_loop` (main.py lines 31-70), observed for `iterations` trips
around the `while True` loop before external cancellation: a missing
`CONN_STRING` returns before `init_db` and before any cycle; a raising
`init_db` is caught by the outer handler with no cycle run; otherwise
each loop iteration calls `gather_stats_pipeline` once. -/
def main_loop (conn_string : Option String) (init_ok : Bool)
    (iterations : ℕ) : MainTrace :=
  if conn_string_missing conn_string then ⟨false, 0⟩
  else if init_ok then ⟨true, iterations⟩ else ⟨true, 0⟩

/-- The `'gpu_id' in item` test of `insert_stats_to_db`. -/
def isGpuItem : Item → Bool
  | .gpu _ => true
  | .pc _ => false

/-- Whether the store accepts a given item's `create` call. -/
def itemCreateOk (store : Store) : Item → Bool
  | .gpu d => store.gpuOk d
  | .pc d => store.pcOk d

/-- Example raw host snapshot: `cpu_percent = 37.456` (the spec's own
scenario value), no frequency reading, 1 GiB used and available, no
network traffic yet. -/
def hostRawEx : HostRaw :=
  ⟨.finite (37456 / 1000), none, .finite (2 ^ 30), .finite (2 ^ 30),
    .finite 0, .finite 0⟩

/-- The `pc_data_dict` that `get_pc_stats` builds from `hostRawEx`:
`pc_usage` keeps the raw `37.456`. -/
def pcDictEx : PcDataDict :=
  ⟨.finite (37456 / 1000), none, .finite 1, .finite 1, .finite 0, .finite 0⟩

/-- Example GPU reading with id 0, all attributes present. -/
def gpuRawA : GpuRaw :=
  ⟨.vint 0, some (.finite 100), some (.finite 200), some (.finite 50)⟩

/-- A GPU reading whose `id` attribute is `None`: `GpuStatsCreateData`
rejects it (`gpu_id` is a required int). -/
def gpuRawBad : GpuRaw :=
  ⟨.vnone, some (.finite 1), some (.finite 1), some (.finite 1)⟩

/-- Example GPU reading with id 2, all attributes present. -/
def gpuRawC : GpuRaw :=
  ⟨.vint 2, some (.finite 300), some (.finite 400), some (.finite 60)⟩

/-- The `gpu_dict` built from `gpuRawA`. -/
def gpuDictA : GpuDict := ⟨.vint 0, .finite 100, .finite 200, .finite 50⟩

/-- Simple validated pc dicts for insertion-level examples. -/
def pcDictA : PcDataDict :=
  ⟨.finite 37, none, .finite 8, .finite 8, .finite 120, .finite 45⟩

/-- A second pc-shaped dict, distinct from `pcDictA` (it carries a
frequency reading). -/
def pcDictB : PcDataDict :=
  ⟨.finite 50, some (.finite 2400), .finite 9, .finite 9, .finite 121, .finite 46⟩

/-- GPU dicts with ids 1, 2, 3 for the spec's partial-failure scenario. -/
def gpuDict1 : GpuDict := ⟨.vint 1, .finite 1, .finite 1, .finite 1⟩

/-- GPU dict with id 2. -/
def gpuDict2 : GpuDict := ⟨.vint 2, .finite 2, .finite 2, .finite 2⟩

/-- GPU dict with id 3. -/
def gpuDict3 : GpuDict := ⟨.vint 3, .finite 3, .finite 3, .finite 3⟩

/-- A store on which every `create` call succeeds. -/
def storeAllOk : Store := ⟨fun _ => true, fun _ => true⟩

/-- A store on which `create` raises exactly for the GPU record with
id 2 (the spec's scenario). -/
def storeFailsGpu2 : Store :=
  ⟨fun _ => true, fun d => if d.gpu_id = PyVal.vint 2 then false else true⟩

/-- A store on which `pc_interface.create` raises exactly for pc
records carrying no frequency reading: it rejects `pcDictA` and accepts
`pcDictB`. -/
def storeFailsPcA : Store :=
  ⟨fun d => match d.pc_freq with | none => false | some _ => true, fun _ => true⟩

/-! Helper lemmas. -/

/-- A gpu-constructor item passes the `'gpu_id' in item` test. -/
theorem isGpuItem_gpu (d : GpuDict) : isGpuItem (Item.gpu d) = true := rfl

/-- A pc-constructor item fails the `'gpu_id' in item` test. -/
theorem isGpuItem_pc (d : PcDataDict) : isGpuItem (Item.pc d) = false := rfl

/-- `itemCreateOk` on a gpu item asks the gpu table oracle. -/
theorem itemCreateOk_gpu (store : Store) (d : GpuDict) :
    itemCreateOk store (Item.gpu d) = store.gpuOk d := rfl

/-- `itemCreateOk` on a pc item asks the pc table oracle. -/
theorem itemCreateOk_pc (store : Store) (d : PcDataDict) :
    itemCreateOk store (Item.pc d) = store.pcOk d := rfl

/-- Validation of a built `pc_data_dict` always succeeds: every field
is a float or `None`, and pydantic's `Optional[float]` accepts all of
them. -/
theorem validate_pc_dict_ok (d : PcDataDict) :
    validate_pc_dict d = .ok ⟨some d.pc_usage, d.pc_freq, some d.ram_usage,
      some d.ram_available, some d.internet_receive, some d.internet_sent⟩ := by
  cases h : d.pc_freq <;>
    simp [validate_pc_dict, validate_pc_stats, pyValOfOpt, validate_optional_float, h,
      Bind.bind, Except.bind, Pure.pure, Except.pure]

/-- The GPU loop on an all-ok prefix followed by a failing reading:
the failure aborts the loop, keeping exactly the dicts of the prefix
and raising the WARNING flag. -/
theorem gpuLoop_abort (pre : List GpuRaw) (g : GpuRaw) (post : List GpuRaw)
    (acc : List GpuDict)
    (hpre : ∀ x ∈ pre, (processGpu x).isOk = true)
    (hg : (processGpu g).isOk = false) :
    gpuLoop (pre ++ g :: post) acc
      = (acc ++ pre.filterMap (fun x => (processGpu x).toOption), true) := by
  induction pre generalizing acc with
  | nil =>
    cases hp : processGpu g with
    | ok d => rw [hp] at hg; simp [Except.isOk, Except.toBool] at hg
    | error e => simp [gpuLoop, hp]
  | cons x xs ih =>
    have hx := hpre x (by simp)
    cases hp : processGpu x with
    | error e => rw [hp] at hx; simp [Except.isOk, Except.toBool] at hx
    | ok d =>
      have hxs : ∀ y ∈ xs, (processGpu y).isOk = true := fun y hy => hpre y (by simp [hy])
      rw [List.cons_append]
      simp only [gpuLoop, hp]
      rw [ih (acc ++ [d]) hxs]
      simp [List.filterMap_cons, hp, Except.toOption]

/-- The GPU loop on readings that all validate: no abort, every dict
collected in order. -/
theorem gpuLoop_all_ok (gs : List GpuRaw) (acc : List GpuDict)
    (h : ∀ x ∈ gs, (processGpu x).isOk = true) :
    gpuLoop gs acc = (acc ++ gs.filterMap (fun x => (processGpu x).toOption), false) := by
  induction gs generalizing acc with
  | nil => simp [gpuLoop]
  | cons x xs ih =>
    have hx := h x (by simp)
    cases hp : processGpu x with
    | error e => rw [hp] at hx; simp [Except.isOk, Except.toBool] at hx
    | ok d =>
      have hxs : ∀ y ∈ xs, (processGpu y).isOk = true := fun y hy => h y (by simp [hy])
      simp only [gpuLoop, hp]
      rw [ih (acc ++ [d]) hxs]
      simp [List.filterMap_cons, hp, Except.toOption]

/-- Every `gpu_id`-keyed item of the batch is given to
`gpu_interface.create`, whatever succeeded or failed before it. -/
theorem insertLoop_attempts_gpu (store : Store) (l : List Item) (s : InsertState) :
    (insertLoop store l s).attempts.filter isGpuItem
      = s.attempts.filter isGpuItem ++ l.filter isGpuItem := by
  induction l generalizing s with
  | nil => simp [insertLoop]
  | cons item rest ih =>
    cases item with
    | gpu d =>
      by_cases hg : store.gpuOk d = true <;>
        · simp only [insertLoop, hg, if_true, if_false, Bool.false_eq_true]
          rw [ih]
          simp [List.filter_append, List.filter_cons, isGpuItem_gpu]
    | pc d =>
      by_cases hz : s.pc_inserted = 0
      · by_cases hp : store.pcOk d = true <;>
          · simp only [insertLoop, hz, hp, if_true, if_false, Bool.false_eq_true]
            rw [ih]
            simp [List.filter_append, List.filter_cons, isGpuItem_pc]
      · simp only [insertLoop, hz, if_false]
        rw [ih]
        simp [List.filter_cons, isGpuItem_pc]

/-- The GPU counter counts exactly the gpu items whose `create`
succeeded. -/
theorem insertLoop_gpu_count (store : Store) (l : List Item) (s : InsertState) :
    (insertLoop store l s).gpu_inserted
      = s.gpu_inserted + (l.filter (fun i => isGpuItem i && itemCreateOk store i)).length := by
  induction l generalizing s with
  | nil => simp [insertLoop]
  | cons item rest ih =>
    cases item with
    | gpu d =>
      by_cases hg : store.gpuOk d = true <;>
        · simp only [insertLoop, hg, if_true, if_false, Bool.false_eq_true]
          rw [ih]
          simp [List.filter_cons, isGpuItem_gpu, itemCreateOk_gpu, hg]
          try omega
    | pc d =>
      by_cases hz : s.pc_inserted = 0
      · by_cases hp : store.pcOk d = true <;>
          · simp only [insertLoop, hz, hp, if_true, if_false, Bool.false_eq_true]
            rw [ih]
            simp [List.filter_cons, isGpuItem_pc]
      · simp only [insertLoop, hz, if_false]
        rw [ih]
        simp [List.filter_cons, isGpuItem_pc]

/-- The pc counter never exceeds one: it is only incremented under the
`pc_stats_inserted_count == 0` guard. -/
theorem insertLoop_pc_le (store : Store) (l : List Item) (s : InsertState)
    (h : s.pc_inserted ≤ 1) : (insertLoop store l s).pc_inserted ≤ 1 := by
  induction l generalizing s with
  | nil => simpa [insertLoop] using h
  | cons item rest ih =>
    cases item with
    | gpu d =>
      by_cases hg : store.gpuOk d = true <;>
        · simp only [insertLoop, hg, if_true, if_false, Bool.false_eq_true]
          exact ih _ h
    | pc d =>
      by_cases hz : s.pc_inserted = 0
      · by_cases hp : store.pcOk d = true
        · simp only [insertLoop, hz, hp, if_true]
          exact ih _ (by simp [hz])
        · simp only [insertLoop, hz, hp, if_true, if_false, Bool.false_eq_true]
          exact ih _ (by simp [hz])
      · simp only [insertLoop, hz, if_false]
        exact ih _ h

/-- Once the pc counter is one it stays one. -/
theorem insertLoop_pc_one (store : Store) (l : List Item) (s : InsertState)
    (h : s.pc_inserted = 1) : (insertLoop store l s).pc_inserted = 1 := by
  induction l generalizing s with
  | nil => simpa [insertLoop] using h
  | cons item rest ih =>
    cases item with
    | gpu d =>
      by_cases hg : store.gpuOk d = true <;>
        · simp only [insertLoop, hg, if_true, if_false, Bool.false_eq_true]
          exact ih _ h
    | pc d =>
      have hz : ¬ s.pc_inserted = 0 := by omega
      simp only [insertLoop, hz, if_false]
      exact ih _ h

/-- Only pc-shaped items are ever put on the skipped list. -/
theorem insertLoop_skipped_pc (store : Store) (l : List Item) (s : InsertState)
    (h : ∀ i ∈ s.skipped, isGpuItem i = false) :
    ∀ i ∈ (insertLoop store l s).skipped, isGpuItem i = false := by
  induction l generalizing s with
  | nil => simpa [insertLoop] using h
  | cons item rest ih =>
    cases item with
    | gpu d =>
      by_cases hg : store.gpuOk d = true <;>
        · simp only [insertLoop, hg, if_true, if_false, Bool.false_eq_true]
          exact ih _ h
    | pc d =>
      by_cases hz : s.pc_inserted = 0
      · by_cases hp : store.pcOk d = true <;>
          · simp only [insertLoop, hz, hp, if_true, if_false, Bool.false_eq_true]
            exact ih _ h
      · simp only [insertLoop, hz, if_false]
        refine ih _ ?_
        intro i hi
        rcases List.mem_append.mp hi with hi1 | hi2
        · exact h i hi1
        · simp only [List.mem_singleton] at hi2
          subst hi2
          exact isGpuItem_pc d

/-- Every pc-shaped item of the batch is either attempted or skipped:
pc-shaped attempts plus skips account for all pc-shaped input. -/
theorem insertLoop_pc_partition (store : Store) (l : List Item) (s : InsertState) :
    ((insertLoop store l s).attempts.filter (fun i => !isGpuItem i)).length
        + (insertLoop store l s).skipped.length
      = (s.attempts.filter (fun i => !isGpuItem i)).length + s.skipped.length
        + (l.filter (fun i => !isGpuItem i)).length := by
  induction l generalizing s with
  | nil => simp [insertLoop]
  | cons item rest ih =>
    cases item with
    | gpu d =>
      by_cases hg : store.gpuOk d = true <;>
        · simp only [insertLoop, hg, if_true, if_false, Bool.false_eq_true]
          rw [ih]
          simp [List.filter_append, List.filter_cons, isGpuItem_gpu]
    | pc d =>
      by_cases hz : s.pc_inserted = 0
      · by_cases hp : store.pcOk d = true <;>
          · simp only [insertLoop, hz, hp, if_true, if_false, Bool.false_eq_true]
            rw [ih]
            simp [List.filter_append, List.filter_cons, isGpuItem_pc]
            omega
      · simp only [insertLoop, hz, if_false]
        rw [ih]
        simp [List.filter_cons, isGpuItem_pc]
        omega

/-- Issued `create` calls are never forgotten by later iterations. -/
theorem insertLoop_attempts_mono (store : Store) (l : List Item) (s : InsertState)
    (i : Item) (h : i ∈ s.attempts) : i ∈ (insertLoop store l s).attempts := by
  induction l generalizing s with
  | nil => simpa [insertLoop] using h
  | cons item rest ih =>
    cases item with
    | gpu d =>
      by_cases hg : store.gpuOk d = true <;>
        · simp only [insertLoop, hg, if_true, if_false, Bool.false_eq_true]
          exact ih _ (by simp [h])
    | pc d =>
      by_cases hz : s.pc_inserted = 0
      · by_cases hp : store.pcOk d = true <;>
          · simp only [insertLoop, hz, hp, if_true, if_false, Bool.false_eq_true]
            exact ih _ (by simp [h])
      · simp only [insertLoop, hz, if_false]
        exact ih _ h

/-! Claims. -/

/-- C1, counterexample: the claim says every numeric field — cpu usage
percent included — is rounded to two decimals before validation. On the
raw snapshot with `cpu_percent = 37.456` the dict passed to validation
keeps `pc_usage = 37.456`, not `round(37.456, 2) = 37.46`: the source
stores `psutil.cpu_percent(interval=None)` without a `round` call. -/
theorem C1_counterexample :
    (buildPcDict hostRawEx).pc_usage ≠ pyRound2 hostRawEx.cpu_percent := by
  simp only [buildPcDict, hostRawEx, pyRound2, ne_eq, PyFloat.finite.injEq]
  norm_num [round2, roundHalfEven]

/-- C1, amended: for every raw host snapshot, the dict handed to
validation (and later inserted) has cpu frequency, ram used/available
and net received/sent rounded to two decimals, but cpu usage percent is
passed through unrounded; validation always succeeds on this dict. -/
theorem C1_rounding_amended (h : HostRaw) :
    (validate_pc_dict (buildPcDict h)).isOk = true
  ∧ (buildPcDict h).pc_usage = h.cpu_percent
  ∧ (buildPcDict h).pc_freq = h.cpu_freq.map pyRound2
  ∧ (buildPcDict h).ram_usage = pyRound2 (pyDiv h.mem_used (1024 ^ 3))
  ∧ (buildPcDict h).ram_available = pyRound2 (pyDiv h.mem_avail (1024 ^ 3))
  ∧ (buildPcDict h).internet_receive = pyRound2 (pyDiv h.bytes_recv (1024 ^ 2))
  ∧ (buildPcDict h).internet_sent = pyRound2 (pyDiv h.bytes_sent (1024 ^ 2)) := by
  refine ⟨?_, rfl, rfl, rfl, rfl, rfl, rfl⟩
  rw [validate_pc_dict_ok]
  rfl

/-- C2, counterexample: the claim says the insertion operation returns
the counts (host 0|1, gpu N, errors) to its caller. On a batch with one
host record and an all-ok store the predicted return value would be the
counts (1, 0, []); the function returns `None` (it is annotated
`-> None` and only prints the counters). -/
theorem C2_counterexample :
    (insert_stats_to_db storeAllOk [Item.pc pcDictA]).1 = PyRet.retNone
  ∧ (insert_stats_to_db storeAllOk [Item.pc pcDictA]).1 ≠ PyRet.counts 1 0 [] := by
  constructor
  · rfl
  · simp [insert_stats_to_db]

/-- C2, amended: `insert_stats_to_db` tracks the host and GPU insertion
counts and the per-record errors internally (they feed its log lines),
but it returns `None` to its caller for every batch and every store
outcome — the counts are not returned. -/
theorem C2_returns_none_amended (store : Store) (batch : List Item) :
    (insert_stats_to_db store batch).1 = PyRet.retNone := by
  by_cases hb : batch.isEmpty <;> simp [insert_stats_to_db, hb]

/-- C3, counterexample: the claim says every snapshot with a NaN or
infinite numeric field fails validation with no record produced. A host
snapshot whose cpu usage is NaN and a GPU snapshot whose memory field
is infinite both pass `PcStatsCreateData`/`GpuStatsCreateData`
validation and yield full records: the models declare plain
`Optional[float]` fields and pydantic's default accepts NaN/inf. -/
theorem C3_counterexample :
    validate_pc_stats (.vfloat .nan) .vnone .vnone .vnone .vnone .vnone
      = .ok ⟨some .nan, none, none, none, none, none⟩
  ∧ validate_gpu_stats (.vint 0) (.vfloat .inf) .vnone .vnone
      = .ok ⟨0, some .inf, none, none⟩ := ⟨rfl, rfl⟩

/-- C3, amended: validation never rejects a float value — NaN and the
infinities included; any snapshot whose fields are floats (with an
integer gpu id for GPU records) validates to a full record. Validation
fails only on non-float-coercible values or a missing/invalid gpu id. -/
theorem C3_accepts_nonfinite_amended (u fq ru ra ir se g1 g2 g3 : PyFloat) (gid : ℤ) :
    validate_pc_stats (.vfloat u) (.vfloat fq) (.vfloat ru) (.vfloat ra)
        (.vfloat ir) (.vfloat se)
      = .ok ⟨some u, some fq, some ru, some ra, some ir, some se⟩
  ∧ validate_gpu_stats (.vint gid) (.vfloat g1) (.vfloat g2) (.vfloat g3)
      = .ok ⟨gid, some g1, some g2, some g3⟩ := ⟨rfl, rfl⟩

/-- C4, counterexample: the claim says only the failing GPU record is
dropped and all others stay. With readings [gpu 0, bad reading, gpu 2]
where the middle one fails validation (its id is `None`), the batch
keeps the host dict and GPU 0 only: GPU 2 is dropped as well, because
the exception aborts the `for gpu in gpus` loop. -/
theorem C4_counterexample :
    get_pc_stats (.ok hostRawEx) (.ok [gpuRawA, gpuRawBad, gpuRawC])
      = (some [Item.pc pcDictEx, Item.gpu gpuDictA], true) := by
  simp [get_pc_stats, validate_pc_dict, validate_pc_stats, buildPcDict, hostRawEx,
    pyValOfOpt, validate_optional_float, gpuLoop, processGpu, pyRound2Val, pyRound2,
    pyDiv, validate_gpu_stats, validate_int, gpuRawA, gpuRawBad, gpuRawC, pcDictEx,
    gpuDictA, Bind.bind, Except.bind, Pure.pure, Except.pure]
  norm_num [round2, roundHalfEven]

/-- C4, amended: when one GPU reading fails validation (or its dict
construction raises), the readings validated before it stay in the
batch, the failing one and every later one are dropped, one warning is
recorded, and the cycle still proceeds: the host record and the
retained GPU records are returned for insertion. -/
theorem C4_abort_amended (h : HostRaw) (pre : List GpuRaw) (g : GpuRaw)
    (post : List GpuRaw)
    (hpre : ∀ x ∈ pre, (processGpu x).isOk = true)
    (hg : (processGpu g).isOk = false) :
    get_pc_stats (.ok h) (.ok (pre ++ g :: post))
      = (some (Item.pc (buildPcDict h)
          :: (pre.filterMap (fun x => (processGpu x).toOption)).map Item.gpu), true) := by
  simp only [get_pc_stats, validate_pc_dict_ok]
  rw [gpuLoop_abort pre g post [] hpre hg]
  simp

/-- Witness for C4: instantiating the amended theorem at the concrete
readings [gpu 0, bad reading, gpu 2]. -/
theorem C4_witness :
    (∀ x ∈ [gpuRawA], (processGpu x).isOk = true)
  ∧ (processGpu gpuRawBad).isOk = false
  ∧ get_pc_stats (.ok hostRawEx) (.ok ([gpuRawA] ++ gpuRawBad :: [gpuRawC]))
      = (some (Item.pc (buildPcDict hostRawEx)
          :: (([gpuRawA]).filterMap (fun x => (processGpu x).toOption)).map Item.gpu),
         true) :=
  ⟨by intro x hx; simp only [List.mem_singleton] at hx; subst hx; rfl,
   rfl,
   C4_abort_amended hostRawEx [gpuRawA] gpuRawBad [gpuRawC]
     (by intro x hx; simp only [List.mem_singleton] at hx; subst hx; rfl) rfl⟩

/-- C5: per-record store-failure isolation in `insert_stats_to_db`.
For every store and batch, every gpu item of the batch is given to
`create` (failures of other records never stop the loop), the gpu
counter equals the number of gpu items whose `create` succeeded, and
the function returns normally (`None`) instead of propagating the
per-record exception. In the spec's scenario — host plus GPUs
{1, 2, 3} on a store that fails exactly GPU 2 — the host and GPUs 1, 3
are inserted and the state reports 2 gpu insertions with GPU 2 as the
sole error. -/
theorem C5_store_failure_isolated (store : Store) (batch : List Item) :
    (insert_stats_to_db store batch).2.attempts.filter isGpuItem
        = batch.filter isGpuItem
  ∧ (insert_stats_to_db store batch).2.gpu_inserted
        = (batch.filter (fun i => isGpuItem i && itemCreateOk store i)).length
  ∧ (insert_stats_to_db store batch).1 = PyRet.retNone
  ∧ insert_stats_to_db storeFailsGpu2
        [Item.pc pcDictA, Item.gpu gpuDict1, Item.gpu gpuDict2, Item.gpu gpuDict3]
      = (PyRet.retNone,
         ⟨1, 2,
          [Item.pc pcDictA, Item.gpu gpuDict1, Item.gpu gpuDict2, Item.gpu gpuDict3],
          [Item.gpu gpuDict2], []⟩) := by
  refine ⟨?_, ?_, ?_, ?_⟩
  · cases batch with
    | nil => simp [insert_stats_to_db, initState]
    | cons a l =>
      simp only [insert_stats_to_db, List.isEmpty_cons, Bool.false_eq_true, if_false]
      rw [insertLoop_attempts_gpu]
      simp [initState]
  · cases batch with
    | nil => simp [insert_stats_to_db, initState]
    | cons a l =>
      simp only [insert_stats_to_db, List.isEmpty_cons, Bool.false_eq_true, if_false]
      rw [insertLoop_gpu_count]
      simp [initState]
  · by_cases hb : batch.isEmpty <;> simp [insert_stats_to_db, hb]
  · simp [insert_stats_to_db, insertLoop, initState, storeFailsGpu2,
      pcDictA, gpuDict1, gpuDict2, gpuDict3]

/-- C6: at most one host-kind record is inserted per batch; only
pc-shaped items are ever skipped, and every pc-shaped item of the batch
is either attempted or skipped (skipping never raises — the function
stays total and returns `None`). -/
theorem C6_at_most_one_host (store : Store) (batch : List Item) :
    (insert_stats_to_db store batch).2.pc_inserted ≤ 1
  ∧ ((insert_stats_to_db store batch).2.skipped.all fun i => !isGpuItem i) = true
  ∧ ((insert_stats_to_db store batch).2.attempts.filter (fun i => !isGpuItem i)).length
        + (insert_stats_to_db store batch).2.skipped.length
      = (batch.filter (fun i => !isGpuItem i)).length := by
  refine ⟨?_, ?_, ?_⟩
  · cases batch with
    | nil => simp [insert_stats_to_db, initState]
    | cons a l =>
      simp only [insert_stats_to_db, List.isEmpty_cons, Bool.false_eq_true, if_false]
      exact insertLoop_pc_le store (a :: l) initState (by simp [initState])
  · cases batch with
    | nil => simp [insert_stats_to_db, initState]
    | cons a l =>
      simp only [insert_stats_to_db, List.isEmpty_cons, Bool.false_eq_true, if_false]
      rw [List.all_eq_true]
      intro i hi
      rw [Bool.not_eq_true']
      exact insertLoop_skipped_pc store (a :: l) initState (by simp [initState]) i hi
  · cases batch with
    | nil => simp [insert_stats_to_db, initState]
    | cons a l =>
      simp only [insert_stats_to_db, List.isEmpty_cons, Bool.false_eq_true, if_false]
      have := insertLoop_pc_partition store (a :: l) initState
      simpa [initState] using this

/-- C7: when GPU enumeration itself throws, the inner handler degrades
the GPU result to an empty sequence with a warning, the cycle goes on:
the batch holds exactly the host record, and (on a store accepting it)
insertion reports one host insertion, zero GPU insertions, no errors
and no skips. -/
theorem C7_enumeration_failure_degrades (h : HostRaw) (e : String) (store : Store)
    (hok : store.pcOk (buildPcDict h) = true) :
    get_pc_stats (.ok h) (.error e) = (some [Item.pc (buildPcDict h)], true)
  ∧ insert_stats_to_db store [Item.pc (buildPcDict h)]
      = (PyRet.retNone, ⟨1, 0, [Item.pc (buildPcDict h)], [], []⟩) := by
  constructor
  · simp only [get_pc_stats, validate_pc_dict_ok]
    simp
  · simp [insert_stats_to_db, insertLoop, initState, hok]

/-- Witness for C7: the example host snapshot with a driver-unavailable
enumeration error on an all-accepting store. -/
theorem C7_witness :
    storeAllOk.pcOk (buildPcDict hostRawEx) = true
  ∧ (get_pc_stats (.ok hostRawEx) (.error "driver unavailable")
        = (some [Item.pc (buildPcDict hostRawEx)], true)
     ∧ insert_stats_to_db storeAllOk [Item.pc (buildPcDict hostRawEx)]
        = (PyRet.retNone, ⟨1, 0, [Item.pc (buildPcDict hostRawEx)], [], []⟩)) :=
  ⟨rfl, C7_enumeration_failure_degrades hostRawEx "driver unavailable" storeAllOk rfl⟩

/-- C8: with `CONN_STRING` missing from the environment (or empty, the
Python falsy check), `main_loop` returns before `init_db` and before
any collection cycle: the pipeline is called zero times. -/
theorem C8_missing_config_no_cycles (env : Option String) (initOk : Bool) (n : ℕ)
    (hmiss : conn_string_missing env = true) :
    main_loop env initOk n = ⟨false, 0⟩ := by
  simp [main_loop, hmiss]

/-- Witness for C8: an absent `CONN_STRING`, observed for 7 loop
iterations' worth of time. -/
theorem C8_witness :
    conn_string_missing none = true ∧ main_loop none true 7 = ⟨false, 0⟩ :=
  ⟨rfl, C8_missing_config_no_cycles none true 7 rfl⟩

/-- C9: an empty batch is a no-op — `insert_stats_to_db` returns
normally (`None`) without issuing a single `create` call for either
entity kind. -/
theorem C9_empty_batch_noop (store : Store) :
    insert_stats_to_db store [] = (PyRet.retNone, initState)
  ∧ (insert_stats_to_db store []).2.attempts = [] := ⟨rfl, rfl⟩

/-- C10: the skip rule is gated on a prior successful host insertion,
not a prior attempt: when the first pc-shaped record's `create` fails,
the next pc-shaped record is still given to `create`, and if the store
accepts it the batch ends with exactly one host insertion. -/
theorem C10_skip_gated_on_success (store : Store) (d1 d2 : PcDataDict)
    (rest : List Item) (hfail : store.pcOk d1 = false) :
    Item.pc d2 ∈ (insert_stats_to_db store
        (Item.pc d1 :: Item.pc d2 :: rest)).2.attempts
  ∧ (store.pcOk d2 = true →
      (insert_stats_to_db store
        (Item.pc d1 :: Item.pc d2 :: rest)).2.pc_inserted = 1) := by
  constructor
  · simp only [insert_stats_to_db, List.isEmpty_cons, Bool.false_eq_true, if_false]
    simp only [insertLoop, initState, hfail, Bool.false_eq_true, if_false, if_pos rfl]
    by_cases hd2 : store.pcOk d2 = true
    · simp only [hd2, if_true]
      exact insertLoop_attempts_mono store rest _ _ (by simp)
    · simp only [hd2, Bool.false_eq_true, if_false]
      exact insertLoop_attempts_mono store rest _ _ (by simp)
  · intro hd2
    simp only [insert_stats_to_db, List.isEmpty_cons, Bool.false_eq_true, if_false]
    simp only [insertLoop, initState, hfail, hd2, Bool.false_eq_true, if_false,
      if_pos rfl, if_true]
    exact insertLoop_pc_one store rest _ rfl

/-- Witness for C10: `storeFailsPcA` rejects `pcDictA` (no frequency
reading) and accepts `pcDictB`; the second pc record is attempted and
inserted. -/
theorem C10_witness :
    storeFailsPcA.pcOk pcDictA = false
  ∧ (Item.pc pcDictB ∈ (insert_stats_to_db storeFailsPcA
        (Item.pc pcDictA :: Item.pc pcDictB :: [])).2.attempts
     ∧ (storeFailsPcA.pcOk pcDictB = true →
        (insert_stats_to_db storeFailsPcA
          (Item.pc pcDictA :: Item.pc pcDictB :: [])).2.pc_inserted = 1)) :=
  ⟨rfl, C10_skip_gated_on_success storeFailsPcA pcDictA pcDictB [] rfl⟩

end PcStatsLogs
